import Mathlib

/-!
Shallow embedding of the RustDemo core: the thread-safe keyed store
(`src/container/rest_store.rs`), the two REST services built on it
(`src/api/rest_store.rs`, `src/api/rest_todos.rs`), and the heartbeat
presence tracker (`src/api/heartbeat.rs`).

The `HashMap<String, T>` behind the `Container` is modelled as an
association list with unique keys; operations mirror `HashMap::get`,
`HashMap::insert` (which returns the previous value), `HashMap::remove`,
`HashMap::retain` and `HashMap::len`.  Iteration order of a `HashMap` is
unspecified, so theorems about the collection `GET` only use
order-insensitive observables (lengths, membership).  The `u32` atomic
online counter is a `Nat` reduced modulo `2 ^ 32` wherever the Rust code
performs a `u32` operation, and `usize` bounds appear as `2 ^ 64 - 1`.
-/

namespace Container

/-- State of `Container<T>`: the `HashMap<String, T>` behind the `RwLock`,
as an association list with (in every reachable state) unique keys. -/
abbrev Store (T : Type) := List (String × T)

/-- Keys of the map all distinct, as `HashMap` guarantees. -/
def NodupKeys {T : Type} (s : Store T) : Prop := (s.map Prod.fst).Nodup

instance {T : Type} (s : Store T) : Decidable (NodupKeys s) := by
  unfold NodupKeys; infer_instance

/-- Embeds `get_by_id`: `map.get(key).cloned()`. -/
def get_by_id {T : Type} (s : Store T) (key : String) : Option T :=
  match s with
  | [] => none
  | p :: rest => if p.1 = key then some p.2 else get_by_id rest key

/-- Embeds `get_all`: `map.clone()`, a snapshot copy of the whole table. -/
def get_all {T : Type} (s : Store T) : Store T := s

/-- Embeds `_get_is`: `map.contains_key(key)`. -/
def get_is {T : Type} (s : Store T) (key : String) : Bool :=
  match s with
  | [] => false
  | p :: rest => if p.1 = key then true else get_is rest key

/-- Embeds `put_by_id`: `map.insert(key.to_string(), value)`, returning the
previous value together with the updated map. -/
def put_by_id {T : Type} (s : Store T) (key : String) (value : T) :
    Option T × Store T :=
  match s with
  | [] => (none, [(key, value)])
  | p :: rest =>
    if p.1 = key then (some p.2, (key, value) :: rest)
    else
      let r := put_by_id rest key value
      (r.1, p :: r.2)

/-- Embeds `delete_by_id`: `map.remove(key)`, returning the removed value
together with the updated map. -/
def delete_by_id {T : Type} (s : Store T) (key : String) :
    Option T × Store T :=
  match s with
  | [] => (none, [])
  | p :: rest =>
    if p.1 = key then (some p.2, rest)
    else
      let r := delete_by_id rest key
      (r.1, p :: r.2)

/-- Embeds `_delete_all`: `map.clear()`. -/
def delete_all {T : Type} (_s : Store T) : Store T := []

/-- Embeds `_len`: `map.len()`. -/
def len {T : Type} (s : Store T) : Nat := s.length

end Container

/-- Maximum value of `usize` (64-bit target), used by
`take(pagination.limit.unwrap_or(usize::MAX))`. -/
def USIZE_MAX : Nat := 2 ^ 64 - 1

/-- Modulus of the `u32` atomic counter in the heartbeat state. -/
def U32_MOD : Nat := 2 ^ 32

/-- HTTP status codes produced by the handlers of this repository. -/
inductive StatusCode where
  | OK
  | CREATED
  | NO_CONTENT
  | FORBIDDEN
  | NOT_FOUND
  | CONFLICT
deriving DecidableEq, Repr

namespace Rest

/-- Models `serde_json::Value`, the opaque payload of the generic store. -/
inductive Value where
  | null
  | bool (b : Bool)
  | num (n : Int)
  | str (s : String)
  | arr (elems : List Value)
  | obj (fields : List (String × Value))

/-- Models `Value::default()`, which is `Value::Null`. -/
def Value.default : Value := Value.null

/-- Stored item of `src/api/rest_store.rs`: `{ id: String, data: Value }`. -/
structure Item where
  id : String
  data : Value

/-- Request body of `src/api/rest_store.rs`: `{ data: Option<Value> }`. -/
structure RequestType where
  data : Option Value

/-- Pagination query of the collection `GET`:
`{ offset: Option<usize>, limit: Option<usize> }`. -/
structure GetPagination where
  offset : Option Nat
  limit : Option Nat

/-- Embeds the no-id branch of `rest_id_get`:
`data.get_all().values().skip(offset.unwrap_or(0)).take(limit.unwrap_or(usize::MAX)).cloned().collect()`.
The snapshot's value sequence is the model list's value column. -/
def rest_id_get_all (data : Container.Store Item) (pagination : GetPagination) :
    List Item :=
  (((Container.get_all data).map Prod.snd).drop (pagination.offset.getD 0)).take
    (pagination.limit.getD USIZE_MAX)

/-- Embeds the id branch of `rest_id_get`: item or `404 NOT_FOUND`. -/
def rest_id_get_one (id : String) (data : Container.Store Item) :
    StatusCode × Option Item :=
  match Container.get_by_id data id with
  | none => (StatusCode.NOT_FOUND, none)
  | some result => (StatusCode.OK, some result)

/-- Embeds `rest_id_put` with the id already resolved (a supplied path id, or
the freshly generated `Uuid` when the path has none): unconditional upsert,
always `201 CREATED`. -/
def rest_id_put (id : String) (data : Container.Store Item)
    (input : RequestType) : (StatusCode × Item) × Container.Store Item :=
  let item : Item := { id := id, data := input.data.getD Value.null }
  ((StatusCode.CREATED, item), (Container.put_by_id data id item).2)

/-- Embeds `rest_id_post` with the id already resolved: insert and
`201 CREATED` when the id is absent, otherwise `409 CONFLICT` with the
existing item and no store change. -/
def rest_id_post (id : String) (data : Container.Store Item)
    (input : RequestType) : (StatusCode × Item) × Container.Store Item :=
  match Container.get_by_id data id with
  | none =>
    let item : Item := { id := id, data := input.data.getD Value.null }
    ((StatusCode.CREATED, item), (Container.put_by_id data id item).2)
  | some result => ((StatusCode.CONFLICT, result), data)

/-- Embeds `rest_id_patch`: `404 NOT_FOUND` when the id is absent, otherwise
the handler builds `Item { id, data: input.data.unwrap_or(Value::default()) }`
and writes it back. -/
def rest_id_patch (id : String) (data : Container.Store Item)
    (input : RequestType) :
    StatusCode × Option Item × Container.Store Item :=
  match Container.get_by_id data id with
  | none => (StatusCode.NOT_FOUND, none, data)
  | some _ =>
    let new_value : Item := { id := id, data := input.data.getD Value.default }
    (StatusCode.OK, some new_value, (Container.put_by_id data id new_value).2)

/-- Embeds `rest_id_delete`: with no path id the handler logs a warning,
leaves the commented-out `_delete_all` uncalled and answers `403 FORBIDDEN`;
with an id it removes the entry (`204 NO_CONTENT`) or answers
`404 NOT_FOUND`. -/
def rest_id_delete (id : Option String) (data : Container.Store Item) :
    StatusCode × Container.Store Item :=
  match id with
  | none => (StatusCode.FORBIDDEN, data)
  | some id =>
    let result := Container.delete_by_id data id
    match result.1 with
    | some _ => (StatusCode.NO_CONTENT, result.2)
    | none => (StatusCode.NOT_FOUND, result.2)

end Rest

namespace Todos

/-- Stored item of `src/api/rest_todos.rs`:
`{ id: String, text: String, completed: bool }`. -/
structure Item where
  id : String
  text : String
  completed : Bool
deriving DecidableEq, Repr

/-- Request body of `src/api/rest_todos.rs`:
`{ text: Option<String>, completed: Option<bool> }`. -/
structure RequestType where
  text : Option String
  completed : Option Bool
deriving DecidableEq, Repr

/-- Embeds `todos_id_post` with the id already resolved: insert and
`201 CREATED` when the id is absent, otherwise `409 CONFLICT` with the
existing item and no store change. -/
def todos_id_post (id : String) (data : Container.Store Item)
    (input : RequestType) : (StatusCode × Item) × Container.Store Item :=
  match Container.get_by_id data id with
  | none =>
    let item : Item :=
      { id := id, text := input.text.getD "", completed := input.completed.getD false }
    ((StatusCode.CREATED, item), (Container.put_by_id data id item).2)
  | some result => ((StatusCode.CONFLICT, result), data)

/-- Embeds `todos_id_patch`: `404 NOT_FOUND` when the id is absent, otherwise
the handler builds
`Item { id, text: input.text.unwrap_or_default(), completed: input.completed.unwrap_or(false) }`
and writes it back. -/
def todos_id_patch (id : String) (data : Container.Store Item)
    (input : RequestType) :
    StatusCode × Option Item × Container.Store Item :=
  match Container.get_by_id data id with
  | none => (StatusCode.NOT_FOUND, none, data)
  | some _ =>
    let new_value : Item :=
      { id := id, text := input.text.getD "", completed := input.completed.getD false }
    (StatusCode.OK, some new_value, (Container.put_by_id data id new_value).2)

end Todos

namespace Heartbeat

/-- Embeds `OnlineState`: the session map `user_activity_time`
(`HashMap<String, Instant>`, instants as naturals) and the `AtomicU32`
counter `user_activity_count` (a natural kept below `2 ^ 32`). -/
structure OnlineState where
  user_activity_time : Container.Store Nat
  user_activity_count : Nat
deriving DecidableEq, Repr

/-- Embeds the initial `ONLINE_STATE`: empty map, counter `0`. -/
def initial_state : OnlineState :=
  { user_activity_time := [], user_activity_count := 0 }

/-- Embeds the fingerprint string of `get_heartbeat`:
`format!("{}:{}:{}", ip, user_agent, accept_language)` with the header
fall-backs `""`, `""` and `"unknown-ip"`. -/
def fingerprint (user_agent accept_language x_forwarded_for : Option String) :
    String :=
  let ua := user_agent.getD ""
  let al := accept_language.getD ""
  let ip := x_forwarded_for.getD "unknown-ip"
  ip ++ ":" ++ ua ++ ":" ++ al

/-- Embeds the session-id block of `get_heartbeat`: the `DefaultHasher`
(an external, deterministic 64-bit hash, taken here as a parameter) applied
to the fingerprint, rendered with `to_string()`. -/
def resolve_session_id (hash64 : String → Nat)
    (user_agent accept_language x_forwarded_for : Option String) : String :=
  toString
    (hash64 (fingerprint user_agent accept_language x_forwarded_for) % 2 ^ 64)

/-- Embeds the activity-update block of `get_heartbeat`: insert
`(new_session_id, Instant::now())`; when `insert` returns `None` the caller
is new and the `u32` counter is incremented. -/
def touch (st : OnlineState) (new_session_id : String) (now : Nat) :
    OnlineState :=
  let r := Container.put_by_id st.user_activity_time new_session_id now
  { user_activity_time := r.2,
    user_activity_count :=
      if r.1.isNone then (st.user_activity_count + 1) % U32_MOD
      else st.user_activity_count }

/-- Response body of `get_heartbeat`: status string and online count (the
wall-clock `timestamp` field is I/O and carries no tracked state).  The
handler sets no cookie and returns no session token. -/
structure HeartbeatResponse where
  status : String
  online_user_count : Nat
deriving DecidableEq, Repr

/-- Embeds `get_heartbeat` as a step function: the `_cookie_jar` argument is
unused (the cookie-based session path is commented out in the source), the
session id is always the fingerprint hash, the state is touched, and the
response reports the counter after the touch. -/
def get_heartbeat (hash64 : String → Nat) (_cookie_jar : Option String)
    (user_agent accept_language x_forwarded_for : Option String)
    (st : OnlineState) (now : Nat) : OnlineState × HeartbeatResponse :=
  let new_session_id :=
    resolve_session_id hash64 user_agent accept_language x_forwarded_for
  let st2 := touch st new_session_id now
  (st2, { status := "alive", online_user_count := st2.user_activity_count })

/-- Embeds one iteration of the loop in `start_cleanup_task`: retain the
records with `now.duration_since(last_active) < timeout.unwrap_or(5)`
(`Instant` subtraction saturates at zero, as does `Nat` subtraction), and
when the length changed store the post-sweep length into the `u32`
counter (`after_count as u32`). -/
def sweep (st : OnlineState) (timeout : Option Nat) (now : Nat) :
    OnlineState :=
  let before_count := st.user_activity_time.length
  let retained :=
    st.user_activity_time.filter (fun p => now - p.2 < timeout.getD 5)
  let after_count := retained.length
  { user_activity_time := retained,
    user_activity_count :=
      if before_count ≠ after_count then after_count % U32_MOD
      else st.user_activity_count }

/-- Folds a sequence of touches (resolved session key, instant) from a
starting state, with no sweep interleaved. -/
def touch_all (st : OnlineState) (ops : List (String × Nat)) : OnlineState :=
  ops.foldl (fun acc p => touch acc p.1 p.2) st

/-- Modelled from the spec: the three-stage session-key resolution that the
specification describes for `get_heartbeat` (a caller-supplied opaque token
is reused if already known, else a fingerprint computed from request
metadata when no token mechanism is available, else a freshly generated
random identifier), written from the spec's words for comparison with the
source's `resolve_session_id`. -/
def spec_resolve_session_key (known_sessions : List String)
    (caller_token : Option String) (metadata_fingerprint : Option String)
    (fresh_random_id : String) : String :=
  match caller_token with
  | some t => if t ∈ known_sessions then t else fresh_random_id
  | none =>
    match metadata_fingerprint with
    | some fp => fp
    | none => fresh_random_id

end Heartbeat

/-! Helper lemmas about the container operations. -/

/-- Looking up the key just written yields the written value. -/
theorem Container.get_put_self {T : Type} (s : Container.Store T) (k : String)
    (v : T) :
    Container.get_by_id (Container.put_by_id s k v).2 k = some v := by
  induction s with
  | nil => simp [Container.put_by_id, Container.get_by_id]
  | cons p rest ih =>
    by_cases h : p.1 = k
    · simp [Container.put_by_id, h, Container.get_by_id]
    · simp [Container.put_by_id, h, Container.get_by_id, ih]

/-- Writing one key does not change the lookup of any other key. -/
theorem Container.get_put_other {T : Type} (s : Container.Store T)
    (k k' : String) (v : T) (h : k ≠ k') :
    Container.get_by_id (Container.put_by_id s k v).2 k' =
      Container.get_by_id s k' := by
  induction s with
  | nil => simp [Container.put_by_id, Container.get_by_id, h]
  | cons p rest ih =>
    by_cases hp : p.1 = k
    · simp [Container.put_by_id, hp, Container.get_by_id, h]
    · simp [Container.put_by_id, hp, Container.get_by_id, ih]

/-- The value returned by an insert is the previous binding of the key. -/
theorem Container.put_fst {T : Type} (s : Container.Store T) (k : String)
    (v : T) :
    (Container.put_by_id s k v).1 = Container.get_by_id s k := by
  induction s with
  | nil => simp [Container.put_by_id, Container.get_by_id]
  | cons p rest ih =>
    by_cases h : p.1 = k <;>
      simp [Container.put_by_id, h, Container.get_by_id, ih]

/-- The value returned by a removal is the previous binding of the key. -/
theorem Container.delete_fst {T : Type} (s : Container.Store T) (k : String) :
    (Container.delete_by_id s k).1 = Container.get_by_id s k := by
  induction s with
  | nil => simp [Container.delete_by_id, Container.get_by_id]
  | cons p rest ih =>
    by_cases h : p.1 = k <;>
      simp [Container.delete_by_id, h, Container.get_by_id, ih]

/-- A lookup misses exactly when the key is not in the key column. -/
theorem Container.get_eq_none_iff {T : Type} (s : Container.Store T)
    (k : String) :
    Container.get_by_id s k = none ↔ k ∉ s.map Prod.fst := by
  induction s with
  | nil => simp [Container.get_by_id]
  | cons p rest ih =>
    by_cases h : p.1 = k
    · simp [Container.get_by_id, h]
    · have hne : ¬ k = p.1 := fun he => h he.symm
      simp only [Container.get_by_id, if_neg h, ih, List.map_cons,
        List.mem_cons]
      tauto

/-- Removing an absent key does not change the map. -/
theorem Container.delete_absent {T : Type} (s : Container.Store T) (k : String)
    (h : Container.get_by_id s k = none) :
    (Container.delete_by_id s k).2 = s := by
  induction s with
  | nil => simp [Container.delete_by_id]
  | cons p rest ih =>
    by_cases hp : p.1 = k
    · simp [Container.get_by_id, hp] at h
    · simp only [Container.get_by_id, hp, if_neg hp] at h
      simp [Container.delete_by_id, hp, ih h]

/-- After a removal on a map with distinct keys, the key is gone. -/
theorem Container.get_delete_self {T : Type} (s : Container.Store T)
    (k : String) (hs : Container.NodupKeys s) :
    Container.get_by_id (Container.delete_by_id s k).2 k = none := by
  induction s with
  | nil => simp [Container.delete_by_id, Container.get_by_id]
  | cons p rest ih =>
    have hnd : p.1 ∉ rest.map Prod.fst ∧ (rest.map Prod.fst).Nodup := by
      simpa [Container.NodupKeys] using hs
    by_cases hp : p.1 = k
    · subst hp
      simp only [Container.delete_by_id, if_pos rfl]
      exact (Container.get_eq_none_iff rest p.1).mpr hnd.1
    · simp [Container.delete_by_id, hp, Container.get_by_id, ih hnd.2]

/-- Size of the map after an insert: one more when the key was new. -/
theorem Container.length_put {T : Type} (s : Container.Store T) (k : String)
    (v : T) :
    (Container.put_by_id s k v).2.length =
      if (Container.get_by_id s k).isNone then s.length + 1
      else s.length := by
  induction s with
  | nil => simp [Container.put_by_id, Container.get_by_id]
  | cons p rest ih =>
    by_cases h : p.1 = k
    · simp [Container.put_by_id, h, Container.get_by_id]
    · simp only [Container.put_by_id, if_neg h, List.length_cons, ih,
        Container.get_by_id]
      split <;> simp

/-- Key column of the map after an insert, as membership. -/
theorem Container.mem_keys_put {T : Type} (s : Container.Store T)
    (k k' : String) (v : T) :
    k' ∈ (Container.put_by_id s k v).2.map Prod.fst ↔
      k' = k ∨ k' ∈ s.map Prod.fst := by
  induction s with
  | nil => simp [Container.put_by_id]
  | cons p rest ih =>
    by_cases h : p.1 = k
    · subst h
      simp [Container.put_by_id]
    · simp only [Container.put_by_id, if_neg h, List.map_cons,
        List.mem_cons, ih]
      tauto

/-- An insert preserves distinctness of the keys. -/
theorem Container.nodupKeys_put {T : Type} (s : Container.Store T) (k : String)
    (v : T) (hs : Container.NodupKeys s) :
    Container.NodupKeys (Container.put_by_id s k v).2 := by
  induction s with
  | nil => simp [Container.put_by_id, Container.NodupKeys]
  | cons p rest ih =>
    have hnd : p.1 ∉ rest.map Prod.fst ∧ (rest.map Prod.fst).Nodup := by
      simpa [Container.NodupKeys] using hs
    by_cases h : p.1 = k
    · subst h
      simpa [Container.put_by_id, Container.NodupKeys] using hnd
    · have htail := ih hnd.2
      simp only [Container.NodupKeys, Container.put_by_id, if_neg h,
        List.map_cons, List.nodup_cons]
      refine ⟨?_, htail⟩
      intro hmem
      rcases (Container.mem_keys_put rest k p.1 v).mp hmem with he | hin
      · exact h he
      · exact hnd.1 hin

/-! Claim theorems. -/

/-- C5: for every key k and values v1, v2, `Put(k, v1); Put(k, v2)` leaves
`Get(k) = v2`, and performing `Put(k, v)` twice yields a store whose
key-to-value mapping is identical to the store after performing it once. -/
theorem put_idempotence {T : Type} (s : Container.Store T) (k : String)
    (v1 v2 v : T) :
    Container.get_by_id
        (Container.put_by_id (Container.put_by_id s k v1).2 k v2).2 k =
      some v2 ∧
    ∀ k', Container.get_by_id
        (Container.put_by_id (Container.put_by_id s k v).2 k v).2 k' =
      Container.get_by_id (Container.put_by_id s k v).2 k' := by
  refine ⟨Container.get_put_self _ _ _, fun k' => ?_⟩
  by_cases h : k = k'
  · subst h
    rw [Container.get_put_self, Container.get_put_self]
  · rw [Container.get_put_other _ _ _ _ h]

/-- C10: a DELETE addressed to the collection root (no id) answers
`403 FORBIDDEN` and leaves the store completely unchanged; the clear-all
operation is never invoked. -/
theorem collection_delete_forbidden (s : Container.Store Rest.Item) :
    Rest.rest_id_delete none s = (StatusCode.FORBIDDEN, s) := rfl

/-- C7: `Delete(k)` then `Get(k)` yields none; deleting a present key
returns the prior value and the service answers `204 NO_CONTENT`; a second
`Delete(k)` returns none, removes nothing, and the service answers
`404 NOT_FOUND`. -/
theorem delete_finality {T : Type} (s : Container.Store T) (k : String)
    (hs : Container.NodupKeys s) :
    Container.get_by_id (Container.delete_by_id s k).2 k = none ∧
    (Container.delete_by_id s k).1 = Container.get_by_id s k ∧
    (Container.delete_by_id (Container.delete_by_id s k).2 k).1 = none ∧
    (Container.delete_by_id (Container.delete_by_id s k).2 k).2 =
      (Container.delete_by_id s k).2 ∧
    ∀ (s' : Container.Store Rest.Item) (k' : String),
      ((Container.get_by_id s' k').isSome →
        Rest.rest_id_delete (some k') s' =
          (StatusCode.NO_CONTENT, (Container.delete_by_id s' k').2)) ∧
      (Container.get_by_id s' k' = none →
        Rest.rest_id_delete (some k') s' =
          (StatusCode.NOT_FOUND, (Container.delete_by_id s' k').2)) := by
  have h1 := Container.get_delete_self s k hs
  have h3 : (Container.delete_by_id (Container.delete_by_id s k).2 k).1 =
      none := by
    rw [Container.delete_fst]
    exact h1
  refine ⟨h1, Container.delete_fst s k, h3,
    Container.delete_absent _ k h1, ?_⟩
  intro s' k'
  constructor
  · intro hsome
    obtain ⟨v, hv⟩ := Option.isSome_iff_exists.mp hsome
    simp [Rest.rest_id_delete, Container.delete_fst, hv]
  · intro hnone
    simp [Rest.rest_id_delete, Container.delete_fst, hnone]

/-- Witness for C7 at a concrete one-entry store. -/
theorem delete_finality_witness :
    Container.get_by_id
        (Container.delete_by_id ([("a", 1)] : Container.Store Nat) "a").2
        "a" = none ∧
    Rest.rest_id_delete (some "a") [("a", Rest.Item.mk "a" Rest.Value.null)] =
      (StatusCode.NO_CONTENT,
        (Container.delete_by_id
          [("a", Rest.Item.mk "a" Rest.Value.null)] "a").2) := by
  constructor
  · exact (delete_finality ([("a", 1)] : Container.Store Nat) "a"
      (by decide)).1
  · exact ((delete_finality ([] : Container.Store Nat) "x" (by decide)).2.2.2.2
      [("a", Rest.Item.mk "a" Rest.Value.null)] "a").1 (by decide)

/-- C2: POST on an absent key answers `201 CREATED`, the stored item is the
request payload, and other keys are untouched; POST on a present key answers
`409 CONFLICT` with the existing item and leaves the store unchanged. -/
theorem rest_post_conflict_law (s : Container.Store Rest.Item) (k : String)
    (input : Rest.RequestType) :
    (Container.get_by_id s k = none →
      (Rest.rest_id_post k s input).1.1 = StatusCode.CREATED ∧
      (Rest.rest_id_post k s input).1.2 =
        { id := k, data := input.data.getD Rest.Value.null } ∧
      Container.get_by_id (Rest.rest_id_post k s input).2 k =
        some { id := k, data := input.data.getD Rest.Value.null } ∧
      ∀ k', k' ≠ k →
        Container.get_by_id (Rest.rest_id_post k s input).2 k' =
          Container.get_by_id s k') ∧
    ∀ v, Container.get_by_id s k = some v →
      (Rest.rest_id_post k s input).1.1 = StatusCode.CONFLICT ∧
      (Rest.rest_id_post k s input).1.2 = v ∧
      (Rest.rest_id_post k s input).2 = s ∧
      Container.get_by_id (Rest.rest_id_post k s input).2 k = some v := by
  constructor
  · intro h
    refine ⟨?_, ?_, ?_, ?_⟩
    · simp [Rest.rest_id_post, h]
    · simp [Rest.rest_id_post, h]
    · simp only [Rest.rest_id_post, h]
      exact Container.get_put_self _ _ _
    · intro k' hk
      simp only [Rest.rest_id_post, h]
      exact Container.get_put_other _ _ _ _ (Ne.symm hk)
  · intro v hv
    simp [Rest.rest_id_post, hv]

/-- Witness for C2 at a concrete key, exercising both branches. -/
theorem rest_post_conflict_law_witness :
    (Rest.rest_id_post "k" [] { data := none }).1.1 = StatusCode.CREATED ∧
    (Rest.rest_id_post "k" [("k", Rest.Item.mk "k" Rest.Value.null)]
        { data := none }).1.1 = StatusCode.CONFLICT := by
  constructor
  · exact ((rest_post_conflict_law [] "k" { data := none }).1 rfl).1
  · exact ((rest_post_conflict_law [("k", Rest.Item.mk "k" Rest.Value.null)]
      "k" { data := none }).2 (Rest.Item.mk "k" Rest.Value.null) rfl).1

/-- C6: for a fixed snapshot of N items the collection GET returns exactly
`max 0 (min limit (N - offset))` items (stated both in truncated `Nat`
arithmetic and in integer arithmetic), a missing offset defaults to 0 and a
missing limit to unbounded, an offset at or beyond N yields an empty page,
and repeated calls against an unmodified store return the same result. -/
theorem pagination_page_length (s : Container.Store Rest.Item)
    (offset limit : Option Nat) :
    (Rest.rest_id_get_all s { offset := offset, limit := limit }).length =
      min (limit.getD USIZE_MAX) (s.length - offset.getD 0) ∧
    ((Rest.rest_id_get_all s { offset := offset, limit := limit }).length :
        Int) =
      max 0 (min ((limit.getD USIZE_MAX : Nat) : Int)
        ((s.length : Int) - ((offset.getD 0 : Nat) : Int))) ∧
    (s.length ≤ offset.getD 0 →
      Rest.rest_id_get_all s { offset := offset, limit := limit } = []) ∧
    (s.length ≤ USIZE_MAX →
      Rest.rest_id_get_all s { offset := none, limit := none } =
        s.map Prod.snd) ∧
    Rest.rest_id_get_all s { offset := offset, limit := limit } =
      Rest.rest_id_get_all s { offset := offset, limit := limit } := by
  have hlen :
      (Rest.rest_id_get_all s { offset := offset, limit := limit }).length =
        min (limit.getD USIZE_MAX) (s.length - offset.getD 0) := by
    simp [Rest.rest_id_get_all, Container.get_all]
  refine ⟨hlen, ?_, ?_, ?_, rfl⟩
  · omega
  · intro h
    have hdrop : ((s.map Prod.snd).drop (offset.getD 0)) = [] :=
      List.drop_eq_nil_of_le (by simpa using h)
    simp [Rest.rest_id_get_all, Container.get_all, hdrop]
  · intro h
    simp only [Rest.rest_id_get_all, Container.get_all, Option.getD_none,
      List.drop_zero]
    exact List.take_of_length_le (by simpa using h)

/-- Witness for C6 at a concrete one-item store. -/
theorem pagination_page_length_witness :
    Rest.rest_id_get_all [("a", Rest.Item.mk "a" Rest.Value.null)]
        { offset := some 1, limit := some 3 } = [] ∧
    Rest.rest_id_get_all [("a", Rest.Item.mk "a" Rest.Value.null)]
        { offset := none, limit := none } =
      [Rest.Item.mk "a" Rest.Value.null] := by
  constructor
  · exact (pagination_page_length [("a", Rest.Item.mk "a" Rest.Value.null)]
      (some 1) (some 3)).2.2.1 (by decide)
  · exact (pagination_page_length [("a", Rest.Item.mk "a" Rest.Value.null)]
      none none).2.2.2.1 (by decide)

/-- C1 counterexample: PATCH does not merge.  The stored todo has
`text = "a"` and `completed = true`; patching with a body that supplies only
`text = "b"` is claimed to leave `completed` unchanged (`true`), but the
handler rebuilds the item with the default `completed = false`. -/
theorem todos_patch_merge_counterexample :
    Container.get_by_id
        (Todos.todos_id_patch "k" [("k", Todos.Item.mk "k" "a" true)]
          { text := some "b", completed := none }).2.2 "k" =
      some (Todos.Item.mk "k" "b" false) ∧
    ¬ Container.get_by_id
        (Todos.todos_id_patch "k" [("k", Todos.Item.mk "k" "a" true)]
          { text := some "b", completed := none }).2.2 "k" =
      some (Todos.Item.mk "k" "b" true) := by decide

/-- C1 amended: PATCH on an existing key replaces the whole stored item:
fields supplied in the request are taken from the request and every
unsupplied field is reset to its default (empty text, `completed = false`,
`Null` data), with the id preserved and other keys untouched; PATCH on an
absent key answers `404 NOT_FOUND` and inserts nothing. -/
theorem todos_patch_replaces_with_defaults (s : Container.Store Todos.Item)
    (id : String) (input : Todos.RequestType) :
    (Container.get_by_id s id = none →
      Todos.todos_id_patch id s input = (StatusCode.NOT_FOUND, none, s)) ∧
    (∀ v, Container.get_by_id s id = some v →
      (Todos.todos_id_patch id s input).1 = StatusCode.OK ∧
      (Todos.todos_id_patch id s input).2.1 =
        some (Todos.Item.mk id (input.text.getD "")
          (input.completed.getD false)) ∧
      Container.get_by_id (Todos.todos_id_patch id s input).2.2 id =
        some (Todos.Item.mk id (input.text.getD "")
          (input.completed.getD false)) ∧
      ∀ k', k' ≠ id →
        Container.get_by_id (Todos.todos_id_patch id s input).2.2 k' =
          Container.get_by_id s k') ∧
    ∀ (s' : Container.Store Rest.Item) (id' : String)
      (input' : Rest.RequestType),
      (Container.get_by_id s' id' = none →
        Rest.rest_id_patch id' s' input' = (StatusCode.NOT_FOUND, none, s')) ∧
      ∀ v, Container.get_by_id s' id' = some v →
        Container.get_by_id (Rest.rest_id_patch id' s' input').2.2 id' =
          some { id := id', data := input'.data.getD Rest.Value.null } := by
  refine ⟨?_, ?_, ?_⟩
  · intro h
    simp [Todos.todos_id_patch, h]
  · intro v hv
    refine ⟨?_, ?_, ?_, ?_⟩
    · simp [Todos.todos_id_patch, hv]
    · simp [Todos.todos_id_patch, hv]
    · simp only [Todos.todos_id_patch, hv]
      exact Container.get_put_self _ _ _
    · intro k' hk
      simp only [Todos.todos_id_patch, hv]
      exact Container.get_put_other _ _ _ _ (Ne.symm hk)
  · intro s' id' input'
    constructor
    · intro h
      simp [Rest.rest_id_patch, h]
    · intro v hv
      simp only [Rest.rest_id_patch, hv]
      exact Container.get_put_self _ _ _

/-- Witness for C1's amended theorem, exercising both branches. -/
theorem todos_patch_replaces_with_defaults_witness :
    Todos.todos_id_patch "k" [] { text := none, completed := none } =
      (StatusCode.NOT_FOUND, none, []) ∧
    (Todos.todos_id_patch "k" [("k", Todos.Item.mk "k" "a" true)]
        { text := some "b", completed := none }).2.1 =
      some (Todos.Item.mk "k" "b" false) := by
  constructor
  · exact (todos_patch_replaces_with_defaults []
      "k" { text := none, completed := none }).1 rfl
  · exact ((todos_patch_replaces_with_defaults
      [("k", Todos.Item.mk "k" "a" true)] "k"
      { text := some "b", completed := none }).2.1
      (Todos.Item.mk "k" "a" true) (by decide)).2.1

/-- Map component of one touch: an insert of the resolved key at `now`. -/
theorem Heartbeat.touch_time (st : Heartbeat.OnlineState) (k : String)
    (now : Nat) :
    (Heartbeat.touch st k now).user_activity_time =
      (Container.put_by_id st.user_activity_time k now).2 := rfl

/-- Counter component of one touch: incremented modulo `2 ^ 32` exactly when
the key was new. -/
theorem Heartbeat.touch_count (st : Heartbeat.OnlineState) (k : String)
    (now : Nat) :
    (Heartbeat.touch st k now).user_activity_count =
      if (Container.get_by_id st.user_activity_time k).isNone then
        (st.user_activity_count + 1) % U32_MOD
      else st.user_activity_count := by
  simp [Heartbeat.touch, Container.put_fst]

/-- Invariant of a touch sequence: keys stay distinct, the key set grows by
the touched keys, and the counter tracks the map size modulo `2 ^ 32`. -/
theorem Heartbeat.touch_all_invariant (ops : List (String × Nat))
    (st : Heartbeat.OnlineState) :
    (Container.NodupKeys st.user_activity_time →
      Container.NodupKeys
        (Heartbeat.touch_all st ops).user_activity_time) ∧
    (∀ k, k ∈ (Heartbeat.touch_all st ops).user_activity_time.map Prod.fst ↔
      k ∈ st.user_activity_time.map Prod.fst ∨ k ∈ ops.map Prod.fst) ∧
    (st.user_activity_count = st.user_activity_time.length % U32_MOD →
      (Heartbeat.touch_all st ops).user_activity_count =
        (Heartbeat.touch_all st ops).user_activity_time.length % U32_MOD) := by
  induction ops generalizing st with
  | nil => simp [Heartbeat.touch_all]
  | cons op rest ih =>
    have hstep : Heartbeat.touch_all st (op :: rest) =
        Heartbeat.touch_all (Heartbeat.touch st op.1 op.2) rest := rfl
    obtain ⟨ihn, ihk, ihc⟩ := ih (Heartbeat.touch st op.1 op.2)
    refine ⟨?_, ?_, ?_⟩
    · intro h
      rw [hstep]
      refine ihn ?_
      rw [Heartbeat.touch_time]
      exact Container.nodupKeys_put _ _ _ h
    · intro k
      rw [hstep, ihk k]
      have hput :
          k ∈ (Heartbeat.touch st op.1 op.2).user_activity_time.map
              Prod.fst ↔
            k = op.1 ∨ k ∈ st.user_activity_time.map Prod.fst := by
        rw [Heartbeat.touch_time]
        exact Container.mem_keys_put _ _ _ _
      rw [hput]
      simp only [List.map_cons, List.mem_cons]
      tauto
    · intro h
      rw [hstep]
      apply ihc
      rw [Heartbeat.touch_count, Heartbeat.touch_time, Container.length_put]
      cases hg : Container.get_by_id st.user_activity_time op.1 with
      | none => simp [hg, h, Nat.mod_add_mod]
      | some v => simp [hg, h]

/-- C4: starting from the empty presence state, after any sequence of
touches with no sweep interleaved the online counter equals the number of
distinct resolved session keys (below the `u32` bound); a touch of a new key
increments the counter by one, a touch of a known key leaves the counter
unchanged, and every touch sets the key's last-seen instant to now. -/
theorem touch_counter_consistency (ops : List (String × Nat))
    (h : (ops.map Prod.fst).toFinset.card < U32_MOD) :
    (Heartbeat.touch_all Heartbeat.initial_state ops).user_activity_count =
      (ops.map Prod.fst).toFinset.card ∧
    (Heartbeat.touch_all Heartbeat.initial_state ops).user_activity_count =
      (Heartbeat.touch_all Heartbeat.initial_state
        ops).user_activity_time.length ∧
    (∀ st k now, Container.get_by_id st.user_activity_time k = none →
      st.user_activity_count + 1 < U32_MOD →
      (Heartbeat.touch st k now).user_activity_count =
        st.user_activity_count + 1) ∧
    (∀ st k now v, Container.get_by_id st.user_activity_time k = some v →
      (Heartbeat.touch st k now).user_activity_count =
        st.user_activity_count) ∧
    ∀ st k now, Container.get_by_id
      (Heartbeat.touch st k now).user_activity_time k = some now := by
  obtain ⟨hn, hk, hc⟩ :=
    Heartbeat.touch_all_invariant ops Heartbeat.initial_state
  have hnodup : Container.NodupKeys
      (Heartbeat.touch_all Heartbeat.initial_state
        ops).user_activity_time :=
    hn (by simp [Heartbeat.initial_state, Container.NodupKeys])
  have hfin :
      ((Heartbeat.touch_all Heartbeat.initial_state
          ops).user_activity_time.map Prod.fst).toFinset =
        (ops.map Prod.fst).toFinset := by
    ext x
    rw [List.mem_toFinset, List.mem_toFinset, hk x]
    simp [Heartbeat.initial_state]
  have hlen : (Heartbeat.touch_all Heartbeat.initial_state
      ops).user_activity_time.length = (ops.map Prod.fst).toFinset.card := by
    have hcard := List.toFinset_card_of_nodup hnodup
    rw [hfin] at hcard
    simpa [List.length_map] using hcard.symm
  have hcount := hc (by simp [Heartbeat.initial_state])
  refine ⟨?_, ?_, ?_, ?_, ?_⟩
  · rw [hcount, hlen, Nat.mod_eq_of_lt h]
  · rw [hcount, hlen, Nat.mod_eq_of_lt h, ← hlen]
  · intro st k now hget hlt
    rw [Heartbeat.touch_count]
    simp [hget, Nat.mod_eq_of_lt hlt]
  · intro st k now v hget
    rw [Heartbeat.touch_count]
    simp [hget]
  · intro st k now
    rw [Heartbeat.touch_time]
    exact Container.get_put_self _ _ _

/-- Witness for C4: three touches over two distinct keys give a counter
of two. -/
theorem touch_counter_consistency_witness :
    (Heartbeat.touch_all Heartbeat.initial_state
        [("a", 1), ("b", 2), ("a", 3)]).user_activity_count = 2 := by
  have h := touch_counter_consistency [("a", 1), ("b", 2), ("a", 3)]
    (by decide)
  exact h.1.trans (by decide)

/-- C3 counterexample: the sweep also evicts a record whose last-seen
instant is exactly `now - timeout` (not strictly older than it).  With
`now = 10` and `timeout = 5`, the record stamped `5 = 10 - 5` is removed,
although a remaining-records bound of `lastSeenAt >= now - timeout` would
have allowed it to stay. -/
theorem sweep_boundary_counterexample :
    (Heartbeat.sweep
        { user_activity_time := [("a", 5)], user_activity_count := 1 }
        (some 5) 10).user_activity_time = [] ∧
    10 - (5 : Nat) = 5 ∧ ¬ ((5 : Nat) < 10 - 5) := by decide

/-- C3 amended: one sweep at time `now` removes exactly the records whose
age `now - lastSeenAt` is at least the timeout (equivalently, keeps exactly
those with `now - lastSeenAt < timeout`); every remaining record satisfies
`lastSeenAt >= now - timeout`; and whenever the removed count is non-zero
the counter is set to the exact post-sweep record count (as a `u32`, which
is exact below `2 ^ 32`), not decremented incrementally. -/
theorem sweep_exact_eviction (st : Heartbeat.OnlineState)
    (timeout : Option Nat) (now : Nat) :
    (∀ p, p ∈ (Heartbeat.sweep st timeout now).user_activity_time ↔
      p ∈ st.user_activity_time ∧ now - p.2 < timeout.getD 5) ∧
    (∀ p, p ∈ (Heartbeat.sweep st timeout now).user_activity_time →
      now - timeout.getD 5 ≤ p.2) ∧
    ((Heartbeat.sweep st timeout now).user_activity_time.length ≠
        st.user_activity_time.length →
      (Heartbeat.sweep st timeout now).user_activity_count =
        (Heartbeat.sweep st timeout now).user_activity_time.length %
          U32_MOD) ∧
    (st.user_activity_time.length < U32_MOD →
      (Heartbeat.sweep st timeout now).user_activity_time.length ≠
        st.user_activity_time.length →
      (Heartbeat.sweep st timeout now).user_activity_count =
        (Heartbeat.sweep st timeout now).user_activity_time.length) := by
  have hmem : ∀ p, p ∈ (Heartbeat.sweep st timeout now).user_activity_time ↔
      p ∈ st.user_activity_time ∧ now - p.2 < timeout.getD 5 := by
    intro p
    simp [Heartbeat.sweep, List.mem_filter]
  refine ⟨hmem, ?_, ?_, ?_⟩
  · intro p hp
    have hlt := ((hmem p).mp hp).2
    omega
  · intro hne
    simp only [Heartbeat.sweep] at hne ⊢
    rw [if_pos (Ne.symm hne)]
  · intro hlt hne
    simp only [Heartbeat.sweep] at hne ⊢
    rw [if_pos (Ne.symm hne)]
    exact Nat.mod_eq_of_lt (lt_of_le_of_lt (List.length_filter_le _ _) hlt)

/-- Witness for C3's amended theorem: sweeping two records of which one is
stale resets the counter to the one remaining record. -/
theorem sweep_exact_eviction_witness :
    (Heartbeat.sweep
        { user_activity_time := [("a", 0), ("b", 9)],
          user_activity_count := 2 } (some 5) 10).user_activity_count = 1 := by
  have h := (sweep_exact_eviction
    { user_activity_time := [("a", 0), ("b", 9)], user_activity_count := 2 }
    (some 5) 10).2.2.2 (by decide) (by decide)
  exact h.trans (by decide)

/-- C8 counterexample: the claimed three-stage resolution would reuse the
already-known caller token `"tok"`, leaving one session record and
refreshing its instant; the handler instead ignores the token, hashes the
metadata fingerprint, creates a second session record and leaves the old
record's instant untouched. -/
theorem heartbeat_token_reuse_counterexample :
    Heartbeat.spec_resolve_session_key ["tok"] (some "tok") (some "fp")
      "fresh" = "tok" ∧
    (Heartbeat.get_heartbeat (fun _ => 0) (some "tok") none none none
        (Heartbeat.touch Heartbeat.initial_state "tok" 0)
        1).1.user_activity_time.length = 2 ∧
    Container.get_by_id
      (Heartbeat.get_heartbeat (fun _ => 0) (some "tok") none none none
        (Heartbeat.touch Heartbeat.initial_state "tok" 0)
        1).1.user_activity_time "tok" = some 0 := by decide

/-- C8 amended: the session key of a liveness check is always the
`DefaultHasher` value of the metadata fingerprint
`"ip:user-agent:accept-language"`; a caller-supplied token never affects the
resolution (the cookie path is commented out), and the response returns no
token to persist. -/
theorem heartbeat_session_fingerprint_only (hash64 : String → Nat)
    (c1 c2 : Option String) (ua al xff : Option String)
    (st : Heartbeat.OnlineState) (now : Nat) :
    Heartbeat.get_heartbeat hash64 c1 ua al xff st now =
      Heartbeat.get_heartbeat hash64 c2 ua al xff st now ∧
    (Heartbeat.get_heartbeat hash64 c1 ua al xff st now).1 =
      Heartbeat.touch st
        (Heartbeat.resolve_session_id hash64 ua al xff) now ∧
    (Heartbeat.get_heartbeat hash64 c1 ua al xff st now).2 =
      { status := "alive",
        online_user_count :=
          (Heartbeat.touch st
            (Heartbeat.resolve_session_id hash64 ua al xff)
            now).user_activity_count } :=
  ⟨rfl, rfl, rfl⟩
